import Mathlib

/-!
Verification of the scheduled-job core of Twitch-AFK-Watcher.

The embedding below is translated from `src/twitch_afk.py`, class
`TwitchAFKWatcher` (`src/Test.py` is an earlier copy of the same file whose
method bodies are identical up to leading underscores in the names; line
references are to `src/twitch_afk.py`).

Modelling conventions:
* Wall-clock time is a `Nat` counting seconds; a day is 86400 seconds, so
  `t / 86400` is the calendar day, `t % 86400` the time of day, `t / 60`
  the calendar minute.
* tkinter `messagebox.showinfo/showerror/showwarning` calls are modelled as
  `Notif` values produced by the operations.
* `subprocess.run(..., check=True)` is modelled by a `RunOutcome` input:
  the process completed with an exit code and captured output, or raised
  `FileNotFoundError`, or raised some other exception.
* The jobs registered with the third-party `schedule` library are modelled
  by `SJob`; Python object identity of `schedule.Job` values is modelled by
  the `id` field, drawn from a counter in `WatcherState`.
-/

namespace TwitchAFK

/-- A notification delivered to the user-interaction surface: one tkinter
`messagebox.showinfo` / `showerror` / `showwarning` call. -/
inductive Notif where
  | info (title msg : String)
  | error (title msg : String)
  | warning (title msg : String)
deriving Repr, DecidableEq

/-- Environment behaviour of one `subprocess.run(streamlink_command, ...)`
call in `_afk_watch` (src/twitch_afk.py lines 168-173): the external tool ran
and returned an exit code with captured stdout/stderr, or the executable was
missing (`FileNotFoundError`), or some other exception was raised. -/
inductive RunOutcome where
  | completed (returncode : Int) (stdoutStr stderrStr : String)
  | fileNotFound
  | otherError (msg : String)
deriving Repr, DecidableEq

/-- The four launcher outcomes named by the specification (§4.1). -/
inductive LaunchResult where
  | success
  | toolExitedWithCode (code : Int) (captured : String)
  | toolNotFound
  | unexpectedFailure (msg : String)
deriving Repr, DecidableEq

/-- Classifies a subprocess run as one of the specification's four launcher
outcomes, following the `try`/`except` structure of `_afk_watch`
(src/twitch_afk.py lines 151-187): `check=True` turns a non-zero exit code
into `CalledProcessError`. -/
def launchResult : RunOutcome → LaunchResult
  | .completed code _ errOut =>
      if code = 0 then .success else .toolExitedWithCode code errOut
  | .fileNotFound => .toolNotFound
  | .otherError msg => .unexpectedFailure msg

/-- The "Starting Stream" notification posted at the top of the `try` block
of `_afk_watch` (src/twitch_afk.py line 152). -/
def startingNotif (channel quality : String) : Notif :=
  .info "Starting Stream"
    ("Attempting to watch " ++ channel ++ " at " ++ quality ++
     " quality... This window may hide temporarily.")

/-- The single notification that surfaces a launcher outcome, with the exact
title and message strings of `_afk_watch` (src/twitch_afk.py lines 175-187). -/
def launchResultNotif (channel quality : String) : LaunchResult → Notif
  | .success =>
      .info "Success"
        ("Successfully started watching " ++ channel ++ " at " ++ quality ++ " quality.")
  | .toolExitedWithCode code captured =>
      .error "Streamlink Error"
        ("Streamlink exited with error code " ++ toString code ++ ":\n" ++ captured)
  | .toolNotFound =>
      .error "Error"
        "Streamlink or mpv not found. Please ensure they are installed and in your system's PATH."
  | .unexpectedFailure msg =>
      .error "Error" ("An unexpected error occurred: " ++ msg)

/-- The MPV player argument list of `_afk_watch`
(src/twitch_afk.py lines 141-148). -/
def mpvArgs : List String :=
  ["--mute=yes", "--really-quiet", "--no-border", "--geometry=0x0+0x0",
   "--no-osc", "--idle=once"]

/-- `" ".join(mpv_args)` (src/twitch_afk.py line 149). -/
def mpvArgsString : String := String.intercalate " " mpvArgs

/-- The target URL `f"https://twitch.tv/{channel}"`
(src/twitch_afk.py line 138). -/
def streamUrl (channel : String) : String := "https://twitch.tv/" ++ channel

/-- The full external command list built by `_afk_watch`
(src/twitch_afk.py lines 154-166). -/
def streamlinkCommand (channel quality : String) : List String :=
  ["streamlink",
   "--player-no-close",
   "--player", "mpv",
   "--player-args", mpvArgsString,
   "--retry-streams", "5",
   "--twitch-disable-ads",
   streamUrl channel, quality]

/-- Embeds `TwitchAFKWatcher._afk_watch` (src/twitch_afk.py lines 130-187) as
the list of notifications it posts, in order.  The `try` block first posts the
"Starting Stream" info box, then runs the external command; each of the three
`except` clauses, and the success path, posts exactly one further box.  The
function is total: every exception raised by `subprocess.run` is caught
(`CalledProcessError`, `FileNotFoundError`, and the final `except Exception`). -/
def afkWatch (channel quality : String) (r : RunOutcome) : List Notif :=
  startingNotif channel quality ::
    (match r with
     | .completed code _ errOut =>
         if code = 0 then
           [.info "Success"
              ("Successfully started watching " ++ channel ++ " at " ++ quality ++ " quality.")]
         else
           [.error "Streamlink Error"
              ("Streamlink exited with error code " ++ toString code ++ ":\n" ++ errOut)]
     | .fileNotFound =>
         [.error "Error"
            "Streamlink or mpv not found. Please ensure they are installed and in your system's PATH."]
     | .otherError msg =>
         [.error "Error" ("An unexpected error occurred: " ++ msg)])

/-- ASCII digit test on a character: models the regex class `\d` on the ASCII
inputs this program handles. -/
def isDig (c : Char) : Bool := 48 ≤ c.toNat && c.toNat ≤ 57

/-- Numeric value of an ASCII digit character. -/
def digVal (c : Char) : Nat := c.toNat - 48

/-- Embeds `datetime.datetime.strptime(time_input, "%H:%M")`
(src/twitch_afk.py line 217).  CPython `_strptime` compiles `"%H:%M"` to the
regex `(2[0-3]|[0-1]\d|\d):([0-5]\d|\d)` and requires it to consume the whole
input; that is exactly: a 1- or 2-digit hour with value ≤ 23, a colon, and a
1- or 2-digit minute with value ≤ 59, and nothing else.  Returns the parsed
(hour, minute); `none` models the `ValueError` raise that `_schedule_watch`
catches. -/
def strptimeHM (s : String) : Option (Nat × Nat) :=
  match s.toList with
  | [a, x, c] =>
      if x == ':' && isDig a && isDig c then some (digVal a, digVal c) else none
  | [a, x, c, d] =>
      if x == ':' && isDig a && isDig c && isDig d
          && decide (digVal c * 10 + digVal d ≤ 59) then
        some (digVal a, digVal c * 10 + digVal d)
      else if c == ':' && isDig a && isDig x && isDig d
          && decide (digVal a * 10 + digVal x ≤ 23) then
        some (digVal a * 10 + digVal x, digVal d)
      else none
  | [a, b, y, c, d] =>
      if y == ':' && isDig a && isDig b && isDig c && isDig d
          && decide (digVal a * 10 + digVal b ≤ 23)
          && decide (digVal c * 10 + digVal d ≤ 59) then
        some (digVal a * 10 + digVal b, digVal c * 10 + digVal d)
      else none
  | _ => none

/-- Models the third-party `schedule` library's `Job.at` validation for a
daily job (the dependency invoked at src/twitch_afk.py line 218; the library
itself is not part of this repository).  `Job.at` requires the time string to
match `^[0-2]\d:[0-5]\d(:[0-5]\d)?$` and the parsed hour to be at most 23;
otherwise it raises `ScheduleValueError`.  `ScheduleValueError` derives from
`ScheduleError(Exception)`, not from `ValueError`, so the
`except ValueError` clause of `_schedule_watch` does not catch it. -/
def scheduleAtDailyOk (s : String) : Bool :=
  match s.toList with
  | [a, b, y, c, d] =>
      y == ':' && (48 ≤ a.toNat && a.toNat ≤ 50) && isDig b
        && (48 ≤ c.toNat && c.toNat ≤ 53) && isDig d
        && decide (digVal a * 10 + digVal b ≤ 23)
  | [a, b, y, c, d, z, e, f] =>
      y == ':' && z == ':' && (48 ≤ a.toNat && a.toNat ≤ 50) && isDig b
        && (48 ≤ c.toNat && c.toNat ≤ 53) && isDig d
        && (48 ≤ e.toNat && e.toNat ≤ 53) && isDig f
        && decide (digVal a * 10 + digVal b ≤ 23)
  | _ => false

/-- A canonical 24-hour clock string `HH:MM` with `00:00 ≤ HH:MM ≤ 23:59`,
written with two digits in each field — the format the specification names
for fire times. -/
def isCanonicalHM (s : String) : Bool :=
  match s.toList with
  | [a, b, y, c, d] =>
      y == ':' && isDig a && isDig b && isDig c && isDig d
        && decide (digVal a * 10 + digVal b ≤ 23)
        && decide (digVal c * 10 + digVal d ≤ 59)
  | _ => false

/-- Models Python `str.strip()` (src/twitch_afk.py lines 195 and 208) on the
ASCII inputs this program handles: drop leading and trailing whitespace. -/
def pyStrip (s : String) : String :=
  ⟨((s.toList.dropWhile Char.isWhitespace).reverse.dropWhile Char.isWhitespace).reverse⟩

/-- Seconds in one day. -/
def secondsPerDay : Nat := 86400

/-- One job object of the `schedule` library (`schedule.every().day.at(t).do(...)`,
src/twitch_afk.py line 218): a daily job with `at_time` (seconds within the
day, second field 0), its `next_run` instant, and the arguments bound to its
`job_func` (which line 218 sets to `self._afk_watch` with that channel and
quality).  `id` models Python object identity of the `schedule.Job`. -/
structure SJob where
  id : Nat
  atTime : Nat
  nextRun : Nat
  channel : String
  quality : String
deriving Repr, DecidableEq

/-- One entry of the `self.scheduled_jobs` registry list
(src/twitch_afk.py line 219): the dict
`{"time": ..., "channel": ..., "quality": ..., "job": ...}`, where `jobId`
models the stored reference to the `schedule.Job` object. -/
structure JobInfo where
  time : String
  channel : String
  quality : String
  jobId : Nat
deriving Repr, DecidableEq

/-- The mutable state shared by the user-interaction surface and the
scheduler: the `self.scheduled_jobs` registry and the `schedule` library's
global job list.  `nextId` is the modelling counter that issues distinct
`SJob.id`s. -/
structure WatcherState where
  scheduledJobs : List JobInfo
  schedJobs : List SJob
  nextId : Nat
deriving Repr, DecidableEq

/-- The state at application start (src/twitch_afk.py line 100:
`self.scheduled_jobs = []`; the `schedule` default scheduler starts empty). -/
def emptyState : WatcherState := ⟨[], [], 0⟩

/-- Models the `schedule` library's `Job._schedule_next_run` for a daily job
with an `at_time`, called both when the job is created by `.do(...)` and
after each run: `next_run` is `now + one day` with the time of day replaced
by `at_time`, then moved back one day when `at_time` is still ahead of the
current time of day (the library's catch-up rule, whose guard
`not last_run or next_run - last_run > period` reduces to exactly that
comparison in both the creation and the just-ran case). -/
def nextOccurrence (now atTime : Nat) : Nat :=
  if now % secondsPerDay < atTime then (now / secondsPerDay) * secondsPerDay + atTime
  else (now / secondsPerDay + 1) * secondsPerDay + atTime

/-- The in-place update `schedule`'s `_run_job` applies to a job it has just
run: only `next_run` changes. -/
def rescheduleJob (now : Nat) (j : SJob) : SJob :=
  { j with nextRun := nextOccurrence now j.atTime }

/-- Which tkinter box `_schedule_watch` ends in (src/twitch_afk.py
lines 202-224):
* `inputErrorWarning`: `showwarning("Input Error", "Please enter a channel name.")`;
* `cancelledInfo`: `showinfo("Cancelled", "Scheduling cancelled.")` when the
  time dialog returned `None` or an empty string;
* `scheduledInfo`: `showinfo("Scheduled", ...)` after the job was appended;
* `invalidTimeError`: `showerror("Invalid Time", "Please enter time in HH:MM
  24h format (e.g., 14:30).")` from the `except ValueError` clause;
* `uncaughtScheduleError`: no box at all — `schedule.Job.at` raised
  `ScheduleValueError`, which `except ValueError` does not catch, so the
  exception escapes the tkinter callback. -/
inductive SchedResult where
  | inputErrorWarning
  | cancelledInfo
  | scheduledInfo
  | invalidTimeError
  | uncaughtScheduleError
deriving Repr, DecidableEq

/-- Embeds `TwitchAFKWatcher._schedule_watch` (src/twitch_afk.py
lines 202-224).  `entry` is the channel text field, `timeInput` the string
dialog result (`none` = dialog cancelled), `now` the current time.  On
success the new job is appended to both the registry and the `schedule` job
list (`Job.do` appends to `scheduler.jobs`; the registry `append` follows on
line 219); on every failure path both lists are left unchanged (`Job.at`
raises before `Job.do` ever appends). -/
def scheduleWatch (st : WatcherState) (entry quality : String)
    (timeInput : Option String) (now : Nat) : WatcherState × SchedResult :=
  if pyStrip entry = "" then (st, .inputErrorWarning)
  else
    match timeInput with
    | none => (st, .cancelledInfo)
    | some t =>
      if t = "" then (st, .cancelledInfo)
      else
        match strptimeHM t with
        | none => (st, .invalidTimeError)
        | some (h, m) =>
          if scheduleAtDailyOk t then
            ({ scheduledJobs := st.scheduledJobs ++
                 [{ time := t, channel := pyStrip entry, quality := quality,
                    jobId := st.nextId }],
               schedJobs := st.schedJobs ++
                 [{ id := st.nextId, atTime := h * 3600 + m * 60,
                    nextRun := nextOccurrence now (h * 3600 + m * 60),
                    channel := pyStrip entry, quality := quality }],
               nextId := st.nextId + 1 }, .scheduledInfo)
          else (st, .uncaughtScheduleError)

/-- How `_show_scheduled_jobs` ends (src/twitch_afk.py lines 226-252). -/
inductive ShowResult where
  | noJobs
  | noChoice
  | skippedInfo
  | cancelledJob (entry : JobInfo)
  | invalidNumberWarning
deriving Repr, DecidableEq

/-- Models `schedule.cancel_job(job)`: remove the first job with the given
object identity from the library's job list (absent jobs are silently
ignored, as the library swallows the `ValueError` of `list.remove`). -/
def removeSchedJob (jobId : Nat) : List SJob → List SJob
  | [] => []
  | j :: js => if j.id == jobId then js else j :: removeSchedJob jobId js

/-- Embeds `TwitchAFKWatcher._show_scheduled_jobs` (src/twitch_afk.py
lines 226-252).  The displayed list is the registry in insertion order with
1-based numbering (line 236); `choice` is the `askinteger` result (`none` =
dialog cancelled; the dialog clamps entries to `0 ≤ choice ≤ len(jobs)`, but
the body re-checks the bounds itself on line 245, which this embedding
follows, so any natural number is accepted here).  A choice of `c ≥ 1` pops
registry index `c - 1` and cancels the popped entry's `schedule` job. -/
def showScheduledJobs (st : WatcherState) (choice : Option Nat) :
    WatcherState × ShowResult :=
  if st.scheduledJobs.isEmpty then (st, .noJobs)
  else
    match choice with
    | none => (st, .noChoice)
    | some c =>
      if c = 0 then (st, .skippedInfo)
      else
        match st.scheduledJobs[c - 1]? with
        | some entry =>
            ({ st with
                scheduledJobs := st.scheduledJobs.eraseIdx (c - 1),
                schedJobs := removeSchedJob entry.jobId st.schedJobs },
             .cancelledJob entry)
        | none => (st, .invalidNumberWarning)

/-- The thread on which a piece of work executes: the tkinter mainloop
thread, the scheduler thread started by `_start_scheduler_thread`, or a
fresh `threading.Thread` worker. -/
inductive ExecCtx where
  | uiThread
  | schedulerThread
  | workerThread
deriving Repr, DecidableEq

/-- One invocation of `_afk_watch`, recording the thread it runs on. -/
structure LaunchEvent where
  ctx : ExecCtx
  channel : String
  quality : String
deriving Repr, DecidableEq

/-- How `_on_click_start` ends (src/twitch_afk.py lines 189-200). -/
inductive StartResult where
  | started
  | inputErrorWarning
deriving Repr, DecidableEq

/-- Result of `_on_click_start`: the (unchanged) shared state, the launch
work it spawned, and which box it showed. -/
structure StartOutcome where
  state : WatcherState
  spawned : List LaunchEvent
  result : StartResult
deriving Repr, DecidableEq

/-- Embeds `TwitchAFKWatcher._on_click_start` (src/twitch_afk.py
lines 189-200): strip the channel entry; a non-empty channel starts
`_afk_watch` on a fresh daemon `threading.Thread` (line 198), an empty one
shows the "Input Error" warning.  The registry is never touched. -/
def onClickStart (st : WatcherState) (entry quality : String) : StartOutcome :=
  if pyStrip entry = "" then ⟨st, [], .inputErrorWarning⟩
  else ⟨st, [⟨.workerThread, pyStrip entry, quality⟩], .started⟩

/-- Insert a job into a list sorted by `nextRun`, after all jobs with a
`nextRun` not larger — the placement Python's stable `sorted` gives. -/
def insertByNextRun (j : SJob) : List SJob → List SJob
  | [] => [j]
  | k :: ks => if k.nextRun ≤ j.nextRun then k :: insertByNextRun j ks else j :: k :: ks

/-- Stable sort by `nextRun`: models the `sorted(runnable_jobs)` in the
`schedule` library's `run_pending` (jobs compare by `next_run`). -/
def sortByNextRun : List SJob → List SJob
  | [] => []
  | j :: js => insertByNextRun j (sortByNextRun js)

/-- Concatenation of the images of `f`, in order. -/
def concatMap (f : α → List β) : List α → List β
  | [] => []
  | a :: as => f a ++ concatMap f as

/-- The due jobs a `run_pending` call executes, in execution order: every job
with `next_run ≤ now`, sorted (stably) by `next_run`. -/
def dueJobs (now : Nat) (js : List SJob) : List SJob :=
  sortByNextRun (js.filter (fun j => decide (j.nextRun ≤ now)))

/-- Result of one pass of the scheduler loop body: the new shared state, the
launcher invocations it performed, and the notifications they posted. -/
structure TickOutcome where
  state : WatcherState
  events : List LaunchEvent
  notifs : List Notif
deriving Repr, DecidableEq

/-- Embeds one iteration of `_run_scheduler` (src/twitch_afk.py
lines 254-261), i.e. one `schedule.run_pending()` call at time `now`.
`run_pending` executes every due job by calling its `job_func` — which
line 218 bound directly to `self._afk_watch`, with no thread in between —
so each launch runs inline on the scheduler thread and the pass blocks
until it returns.  The `oracle` gives the environment's outcome for each
`subprocess.run`.  Each executed job is rescheduled in place
(`_schedule_next_run`); `run_pending` never adds or removes jobs
(`_afk_watch` returns `None`, never `schedule.CancelJob`), and it never
touches the `scheduled_jobs` registry. -/
def schedulerTick (now : Nat) (st : WatcherState)
    (oracle : String → String → RunOutcome) : TickOutcome :=
  let due := dueJobs now st.schedJobs
  { state := { st with
      schedJobs := st.schedJobs.map
        (fun j => if j.nextRun ≤ now then rescheduleJob now j else j) },
    events := due.map (fun j => ⟨.schedulerThread, j.channel, j.quality⟩),
    notifs := concatMap
      (fun j => afkWatch j.channel j.quality (oracle j.channel j.quality)) due }

/-- Shorthand used by the concrete scenarios below: one `_schedule_watch`
call at time 0 with the given channel text and fire-time string, keeping the
resulting state. -/
def demoAdd (st : WatcherState) (channel t : String) : WatcherState :=
  (scheduleWatch st channel "best" (some t) 0).1

/-- Registry with two jobs: alice at 10:00 (handle 1), bob at 11:00 (handle 2). -/
def demoTwo : WatcherState := demoAdd (demoAdd emptyState "alice" "10:00") "bob" "11:00"

/-- Registry with three jobs: alice (handle 1), bob (handle 2), carol (handle 3). -/
def demoThree : WatcherState := demoAdd demoTwo "carol" "12:00"

/-- Registry with the specification's scenario job: ("18:30", "somechannel",
"best"), added at time 0, so its first `next_run` is 18:30:00 of day 0
(second 66600). -/
def demoDue : WatcherState := demoAdd emptyState "somechannel" "18:30"

/-- An environment in which every external launch reports a missing tool. -/
def oracleNotFound : String → String → RunOutcome := fun _ _ => .fileNotFound

end TwitchAFK

namespace TwitchAFK

/-- The launcher posts the starting box and then exactly the one notification
that `launchResultNotif` assigns to the classified outcome. -/
theorem afkWatch_eq (channel quality : String) (r : RunOutcome) :
    afkWatch channel quality r =
      [startingNotif channel quality,
       launchResultNotif channel quality (launchResult r)] := by
  cases r with
  | completed code out errOut =>
      by_cases h : code = 0 <;> simp [afkWatch, launchResult, launchResultNotif, h]
  | fileNotFound => rfl
  | otherError msg => rfl

/-- A canonical `HH:MM` string passes both the `strptime` parse and the
`schedule` library's own format check, and the two agree on the parsed
value. -/
theorem canonical_passes (s : String) (hc : isCanonicalHM s = true) :
    ∃ h m, strptimeHM s = some (h, m) ∧ scheduleAtDailyOk s = true := by
  unfold isCanonicalHM at hc
  split at hc
  case _ a b y c d heq =>
    simp only [Bool.and_eq_true, decide_eq_true_eq, beq_iff_eq, isDig, digVal] at hc
    obtain ⟨⟨⟨⟨⟨⟨hy, ha⟩, hb⟩, hcc⟩, hd⟩, hh⟩, hm⟩ := hc
    subst hy
    refine ⟨digVal a * 10 + digVal b, digVal c * 10 + digVal d, ?_, ?_⟩
    · unfold strptimeHM
      rw [heq]
      split
      · rename_i h; simp at h
      · rename_i h; simp at h
      · rename_i a' b' y' c' d' heq2
        simp only [List.cons.injEq, and_true] at heq2
        obtain ⟨rfl, rfl, hy2, rfl, rfl⟩ := heq2
        subst hy2
        rw [if_pos]
        simp only [Bool.and_eq_true, decide_eq_true_eq, beq_self_eq_true, true_and,
          isDig, digVal]
        omega
      · rename_i h1 h2 h3
        exact (h3 a b ':' c d rfl).elim
    · unfold scheduleAtDailyOk
      rw [heq]
      split
      · rename_i a' b' y' c' d' heq2
        simp only [List.cons.injEq, and_true] at heq2
        obtain ⟨rfl, rfl, hy2, rfl, rfl⟩ := heq2
        subst hy2
        simp only [Bool.and_eq_true, decide_eq_true_eq, beq_self_eq_true, true_and,
          isDig, digVal]
        omega
      · rename_i h; simp at h
      · rename_i h1 h2
        exact (h1 a b ':' c d rfl).elim
  case _ => exact absurd hc (by simp)

/-- Lookup below the erased index is unchanged by `eraseIdx`. -/
theorem getElem_eraseIdx_lt {α : Type} (l : List α) (i j : Nat) (hij : j < i) :
    (l.eraseIdx i)[j]? = l[j]? := by
  induction l generalizing i j with
  | nil => simp [List.eraseIdx]
  | cons a as ih =>
    cases i with
    | zero => omega
    | succ i2 =>
      cases j with
      | zero => simp [List.eraseIdx]
      | succ j2 => simpa [List.eraseIdx] using ih i2 j2 (by omega)

/-- Lookup at or above the erased index shifts by one under `eraseIdx`. -/
theorem getElem_eraseIdx_ge {α : Type} (l : List α) (i j : Nat) (hij : i ≤ j) :
    (l.eraseIdx i)[j]? = l[j + 1]? := by
  induction l generalizing i j with
  | nil => simp [List.eraseIdx]
  | cons a as ih =>
    cases i with
    | zero => simp [List.eraseIdx]
    | succ i2 =>
      cases j with
      | zero => omega
      | succ j2 => simpa [List.eraseIdx] using ih i2 j2 (by omega)

/-- `_schedule_watch` only ever appends to the registry: on every path the
resulting registry is the old one followed by zero or one new entries. -/
theorem scheduleWatch_appends (st : WatcherState) (entry quality : String)
    (tIn : Option String) (now : Nat) :
    ∃ tail, (scheduleWatch st entry quality tIn now).1.scheduledJobs =
      st.scheduledJobs ++ tail := by
  unfold scheduleWatch
  split
  · exact ⟨[], by simp⟩
  · split
    · exact ⟨[], by simp⟩
    · split
      · exact ⟨[], by simp⟩
      · split
        · exact ⟨[], by simp⟩
        · split
          · exact ⟨[_], rfl⟩
          · exact ⟨[], by simp⟩

/-- A cancel choice `c` whose index `c - 1` exists pops exactly that registry
entry and cancels its `schedule` job. -/
theorem showScheduledJobs_cancel (st : WatcherState) (c : Nat) (e : JobInfo)
    (h1 : 1 ≤ c) (hget : st.scheduledJobs[c - 1]? = some e) :
    showScheduledJobs st (some c) =
      ({ st with scheduledJobs := st.scheduledJobs.eraseIdx (c - 1),
                 schedJobs := removeSchedJob e.jobId st.schedJobs },
       .cancelledJob e) := by
  have hlt : c - 1 < st.scheduledJobs.length := (List.getElem?_eq_some.mp hget).1
  have hne : st.scheduledJobs.isEmpty = false :=
    List.isEmpty_eq_false.mpr (by intro hnil; rw [hnil] at hlt; simp at hlt)
  have h0 : ¬c = 0 := by omega
  unfold showScheduledJobs
  simp [hne, h0, hget]

/-- A cancel choice whose index does not exist shows the Invalid-Input
warning and leaves the state unchanged. -/
theorem showScheduledJobs_invalid (st : WatcherState) (c : Nat)
    (hne : st.scheduledJobs.isEmpty = false) (h0 : ¬c = 0)
    (hnone : st.scheduledJobs[c - 1]? = none) :
    showScheduledJobs st (some c) = (st, .invalidNumberWarning) := by
  unfold showScheduledJobs
  simp [hne, h0, hnone]

/-- C2 (counterexample): handles are not stable under cancellation of other
jobs.  Add alice, bob, carol (jobIds 0, 1, 2; bob's handle at insertion is
2).  Cancel handle 1 (alice, a different job).  Passing bob's handle 2 to
cancel now removes carol (jobId 2), not bob — the handle no longer
identifies the same job. -/
theorem handle_stability_counterexample :
    demoThree.scheduledJobs.map JobInfo.jobId = [0, 1, 2] ∧
    (showScheduledJobs demoThree (some 1)).2 =
      .cancelledJob ⟨"10:00", "alice", "best", 0⟩ ∧
    (showScheduledJobs (showScheduledJobs demoThree (some 1)).1 (some 2)).2 =
      .cancelledJob ⟨"12:00", "carol", "best", 2⟩ ∧
    (showScheduledJobs (showScheduledJobs demoThree (some 1)).1
        (some 2)).1.scheduledJobs.map JobInfo.jobId = [1] := by
  decide

/-- C2 (amended): a job's handle — its 1-based position at insertion — keeps
identifying the same registry entry across any later `add` (which only
appends) and across cancellation of jobs at strictly later positions; but
cancelling a job at an earlier position shifts the entry down to the next
lower position, so the handle is not stable under arbitrary cancels of other
jobs. -/
theorem handle_positional_stability (st : WatcherState) (h : Nat) (e : JobInfo)
    (hh1 : 1 ≤ h) (hget : st.scheduledJobs[h - 1]? = some e) :
    (∀ entry quality tIn now,
      (scheduleWatch st entry quality tIn now).1.scheduledJobs[h - 1]? = some e) ∧
    (∀ c, h < c →
      (showScheduledJobs st (some c)).1.scheduledJobs[h - 1]? = some e) ∧
    (∀ c, 1 ≤ c → c < h →
      (showScheduledJobs st (some c)).1.scheduledJobs[h - 2]? = some e) := by
  have hlt : h - 1 < st.scheduledJobs.length := (List.getElem?_eq_some.mp hget).1
  have hne : st.scheduledJobs.isEmpty = false :=
    List.isEmpty_eq_false.mpr (by intro hnil; rw [hnil] at hlt; simp at hlt)
  refine ⟨fun entry quality tIn now => ?_, fun c hc => ?_, fun c hc1 hc2 => ?_⟩
  · obtain ⟨tail, htail⟩ := scheduleWatch_appends st entry quality tIn now
    rw [htail, List.getElem?_append_left hlt]
    exact hget
  · cases hc' : st.scheduledJobs[c - 1]? with
    | none =>
        rw [showScheduledJobs_invalid st c hne (by omega) hc']
        exact hget
    | some e2 =>
        rw [showScheduledJobs_cancel st c e2 (by omega) hc']
        dsimp only
        rw [getElem_eraseIdx_lt st.scheduledJobs (c - 1) (h - 1) (by omega)]
        exact hget
  · obtain ⟨e2, he2⟩ : ∃ e2, st.scheduledJobs[c - 1]? = some e2 :=
      ⟨_, List.getElem?_eq_getElem (by omega)⟩
    rw [showScheduledJobs_cancel st c e2 hc1 he2]
    dsimp only
    rw [getElem_eraseIdx_ge st.scheduledJobs (c - 1) (h - 2) (by omega),
      (by omega : h - 2 + 1 = h - 1)]
    exact hget

/-- Witness for `handle_positional_stability` on the three-job registry:
bob's handle 2 survives cancelling carol (handle 3), and cancelling alice
(handle 1) moves bob down to position 1. -/
theorem handle_positional_stability_witness :
    (showScheduledJobs demoThree (some 3)).1.scheduledJobs[1]? =
      some ⟨"11:00", "bob", "best", 1⟩ ∧
    (showScheduledJobs demoThree (some 1)).1.scheduledJobs[0]? =
      some ⟨"11:00", "bob", "best", 1⟩ :=
  ⟨(handle_positional_stability demoThree 2 ⟨"11:00", "bob", "best", 1⟩
      (by decide) (by decide)).2.1 3 (by decide),
   (handle_positional_stability demoThree 2 ⟨"11:00", "bob", "best", 1⟩
      (by decide) (by decide)).2.2 1 (by decide) (by decide)⟩

/-- C3 (counterexample): double-cancel is not detected as NotFound.  With
alice and bob scheduled, cancelling handle 1 removes alice; passing the same
handle 1 again — a handle whose job was already cancelled — does not fail
with the Invalid-Input warning and does not leave the registry unchanged: it
silently removes bob, a different job. -/
theorem cancel_notfound_counterexample :
    (showScheduledJobs demoTwo (some 1)).2 =
      .cancelledJob ⟨"10:00", "alice", "best", 0⟩ ∧
    (showScheduledJobs (showScheduledJobs demoTwo (some 1)).1 (some 1)).2 =
      .cancelledJob ⟨"11:00", "bob", "best", 1⟩ ∧
    (showScheduledJobs (showScheduledJobs demoTwo (some 1)).1 (some 1)).2 ≠
      .invalidNumberWarning ∧
    (showScheduledJobs (showScheduledJobs demoTwo (some 1)).1
        (some 1)).1.scheduledJobs ≠
      (showScheduledJobs demoTwo (some 1)).1.scheduledJobs := by
  decide

/-- C3 (amended): a cancel whose 1-based index currently exists removes
exactly the entry at that position — the registry becomes the part before it
followed by the part after it, all other entries keeping their relative
order — and cancels that entry's `schedule` job; an index beyond the current
registry length fails with the Invalid-Input warning and changes nothing.
But the handle is purely positional: after a cancel, the same handle value
denotes whichever job now occupies that position (see the counterexample),
so a double-cancel is detected only when the position is past the new end of
the list. -/
theorem cancel_by_index_behavior (st : WatcherState) (c : Nat) (e : JobInfo)
    (h1 : 1 ≤ c) (hget : st.scheduledJobs[c - 1]? = some e) :
    (showScheduledJobs st (some c)).2 = .cancelledJob e ∧
    (showScheduledJobs st (some c)).1.scheduledJobs =
      st.scheduledJobs.take (c - 1) ++ st.scheduledJobs.drop c ∧
    (showScheduledJobs st (some c)).1.schedJobs =
      removeSchedJob e.jobId st.schedJobs ∧
    (∀ d, st.scheduledJobs.length < d →
      showScheduledJobs st (some d) = (st, .invalidNumberWarning)) := by
  have hlt : c - 1 < st.scheduledJobs.length := (List.getElem?_eq_some.mp hget).1
  have hne : st.scheduledJobs.isEmpty = false :=
    List.isEmpty_eq_false.mpr (by intro hnil; rw [hnil] at hlt; simp at hlt)
  have hcancel := showScheduledJobs_cancel st c e h1 hget
  refine ⟨by rw [hcancel], ?_, by rw [hcancel], fun d hd => ?_⟩
  · rw [hcancel]
    dsimp only
    rw [List.eraseIdx_eq_take_drop_succ, (by omega : c - 1 + 1 = c)]
  · exact showScheduledJobs_invalid st d hne (by omega)
      (List.getElem?_eq_none (by omega))

/-- Witness for `cancel_by_index_behavior` on the two-job registry:
cancelling handle 1 removes exactly alice and keeps bob, and handle 5 is
rejected with the registry unchanged. -/
theorem cancel_by_index_behavior_witness :
    (showScheduledJobs demoTwo (some 1)).2 =
      .cancelledJob ⟨"10:00", "alice", "best", 0⟩ ∧
    showScheduledJobs demoTwo (some 5) = (demoTwo, .invalidNumberWarning) :=
  ⟨(cancel_by_index_behavior demoTwo 1 ⟨"10:00", "alice", "best", 0⟩
      (by decide) (by decide)).1,
   (cancel_by_index_behavior demoTwo 1 ⟨"10:00", "alice", "best", 0⟩
      (by decide) (by decide)).2.2.2 5 (by decide)⟩

/-- C1 (counterexample): the fire-time string "8:30" is neither accepted (it
is not appended and no "Scheduled" box is shown) nor rejected with the
InvalidTime error: `strptime("%H:%M")` parses it, and the `schedule`
library's stricter check then raises `ScheduleValueError`, which escapes the
`except ValueError` clause uncaught — so `add` neither succeeds nor fails
with InvalidTime, contradicting the claimed dichotomy. -/
theorem add_invalidtime_counterexample :
    (scheduleWatch emptyState "somechannel" "best" (some "8:30") 0).2 ≠ .scheduledInfo ∧
    (scheduleWatch emptyState "somechannel" "best" (some "8:30") 0).2 ≠ .invalidTimeError ∧
    (scheduleWatch emptyState "somechannel" "best" (some "8:30") 0).2 = .uncaughtScheduleError ∧
    (scheduleWatch emptyState "somechannel" "best" (some "8:30") 0).1 = emptyState := by
  decide

/-- C1 (amended): with a non-empty channel and a non-empty fire-time string:
a canonical two-digit HH:MM time (00:00 through 23:59) is accepted and the
new job is appended to the registry (so it appears in `list()` in insertion
order); a string the `strptime("%H:%M")` parse rejects fails with the
InvalidTime error and leaves the whole state unchanged; but a string that
`strptime` parses and the `schedule` library's stricter two-digit check
rejects (e.g. "8:30") raises an uncaught `ScheduleValueError`: the state is
still unchanged, but no InvalidTime error is reported. -/
theorem schedule_add_trichotomy (st : WatcherState) (entry quality t : String)
    (now : Nat) (hch : pyStrip entry ≠ "") (ht : t ≠ "") :
    (isCanonicalHM t = true →
       (scheduleWatch st entry quality (some t) now).2 = .scheduledInfo ∧
       (scheduleWatch st entry quality (some t) now).1.scheduledJobs =
         st.scheduledJobs ++ [⟨t, pyStrip entry, quality, st.nextId⟩]) ∧
    (strptimeHM t = none →
       scheduleWatch st entry quality (some t) now = (st, .invalidTimeError)) ∧
    (∀ p, strptimeHM t = some p → scheduleAtDailyOk t = false →
       scheduleWatch st entry quality (some t) now = (st, .uncaughtScheduleError)) := by
  refine ⟨fun hcan => ?_, fun hnone => ?_, fun p hp hnok => ?_⟩
  · obtain ⟨h, m, hsp, hok⟩ := canonical_passes t hcan
    constructor <;> simp [scheduleWatch, hch, ht, hsp, hok]
  · simp [scheduleWatch, hch, ht, hnone]
  · obtain ⟨h, m⟩ := p
    simp [scheduleWatch, hch, ht, hp, hnok]

/-- Witness for `schedule_add_trichotomy`: adding "14:30" to the empty
registry succeeds and appends the entry. -/
theorem schedule_add_trichotomy_witness :
    (scheduleWatch emptyState "somechannel" "best" (some "14:30") 0).2 = .scheduledInfo ∧
    (scheduleWatch emptyState "somechannel" "best" (some "14:30") 0).1.scheduledJobs =
      emptyState.scheduledJobs ++
        [⟨"14:30", pyStrip "somechannel", "best", emptyState.nextId⟩] :=
  (schedule_add_trichotomy emptyState "somechannel" "best" "14:30" 0
    (by decide) (by decide)).1 (by decide)

/-- C10: a channel entry that strips to the empty string — in particular a
whitespace-only entry — makes both the immediate-watch path and the
scheduling path reject with the Input Error warning; no launch worker is
spawned and the job registry and schedule are unchanged. -/
theorem empty_channel_rejected (st : WatcherState) (entry quality : String)
    (tIn : Option String) (now : Nat) (hempty : pyStrip entry = "") :
    onClickStart st entry quality = ⟨st, [], .inputErrorWarning⟩ ∧
    scheduleWatch st entry quality tIn now = (st, .inputErrorWarning) := by
  constructor <;> simp [onClickStart, scheduleWatch, hempty]

/-- Witness for `empty_channel_rejected` at a whitespace-only entry. -/
theorem empty_channel_rejected_witness :
    onClickStart emptyState "   " "best" = ⟨emptyState, [], .inputErrorWarning⟩ ∧
    scheduleWatch emptyState "   " "best" (some "14:30") 0 =
      (emptyState, .inputErrorWarning) :=
  empty_channel_rejected emptyState "   " "best" (some "14:30") 0 (by decide)

/-- Membership in an insertion step of the stable sort. -/
theorem mem_insertByNextRun (j a : SJob) (l : List SJob) :
    a ∈ insertByNextRun j l ↔ a = j ∨ a ∈ l := by
  induction l with
  | nil => simp [insertByNextRun]
  | cons k ks ih =>
    unfold insertByNextRun
    split
    · simp only [List.mem_cons, ih]
      tauto
    · simp only [List.mem_cons]

/-- The stable sort keeps exactly the members of its input. -/
theorem mem_sortByNextRun (a : SJob) (l : List SJob) :
    a ∈ sortByNextRun l ↔ a ∈ l := by
  induction l with
  | nil => simp [sortByNextRun]
  | cons k ks ih => simp [sortByNextRun, mem_insertByNextRun, ih]

/-- A job is in the due pass exactly when it is registered and due. -/
theorem mem_dueJobs (now : Nat) (js : List SJob) (j : SJob) :
    j ∈ dueJobs now js ↔ j ∈ js ∧ j.nextRun ≤ now := by
  simp [dueJobs, mem_sortByNextRun, List.mem_filter]

/-- An element of one image list is in the concatenation of all images. -/
theorem mem_concatMap {α β : Type} (f : α → List β) (l : List α) (a : α) (b : β)
    (ha : a ∈ l) (hb : b ∈ f a) : b ∈ concatMap f l := by
  induction l with
  | nil => cases ha
  | cons x xs ih =>
    cases ha with
    | head => exact List.mem_append_left _ hb
    | tail _ ha2 => exact List.mem_append_right _ (ih ha2)

/-- A due job's launch appears among the tick's events (on the scheduler
thread, where `run_pending` runs `job_func`). -/
theorem event_of_due (now : Nat) (st : WatcherState)
    (oracle : String → String → RunOutcome) (j : SJob)
    (hmem : j ∈ st.schedJobs) (hdue : j.nextRun ≤ now) :
    LaunchEvent.mk .schedulerThread j.channel j.quality ∈
      (schedulerTick now st oracle).events :=
  List.mem_map_of_mem _ ((mem_dueJobs now st.schedJobs j).mpr ⟨hmem, hdue⟩)

/-- Every notification a due job's launch posts appears among the tick's
notifications. -/
theorem notif_of_due (now : Nat) (st : WatcherState)
    (oracle : String → String → RunOutcome) (j : SJob)
    (hmem : j ∈ st.schedJobs) (hdue : j.nextRun ≤ now) (n : Notif)
    (hn : n ∈ afkWatch j.channel j.quality (oracle j.channel j.quality)) :
    n ∈ (schedulerTick now st oracle).notifs :=
  mem_concatMap _ _ j n ((mem_dueJobs now st.schedJobs j).mpr ⟨hmem, hdue⟩) hn

/-- The tick updates each schedule-library job in place: a due job at
position `i` is rescheduled there, with nothing moved, added or dropped. -/
theorem tick_schedJobs_getElem (now : Nat) (st : WatcherState)
    (oracle : String → String → RunOutcome) (i : Nat) (j : SJob)
    (hget : st.schedJobs[i]? = some j) (hdue : j.nextRun ≤ now) :
    (schedulerTick now st oracle).state.schedJobs[i]? =
      some (rescheduleJob now j) := by
  show (st.schedJobs.map _)[i]? = _
  rw [List.getElem?_map, hget]
  simp [hdue]

/-- C4: a scheduler firing pass never removes or modifies a registry entry:
the registry list is untouched by the tick, the schedule keeps the same
number of jobs, a job that fires stays at its position with its identity,
fire time, channel and quality unchanged, and — when it fired at or after
its fire time within the day — its new `next_run` is the next day's
occurrence.  Moreover the only operation that extends the registry is `add`
(which appends) and the only one that shrinks it is an explicit cancel
(which erases one index); the immediate-watch path never touches the state
at all. -/
theorem firing_pass_frame (st : WatcherState)
    (oracle : String → String → RunOutcome) (now i : Nat) (j : SJob)
    (hget : st.schedJobs[i]? = some j) (hdue : j.nextRun ≤ now)
    (hinday : j.atTime ≤ now % secondsPerDay) :
    (schedulerTick now st oracle).state.scheduledJobs = st.scheduledJobs ∧
    (schedulerTick now st oracle).state.schedJobs.length = st.schedJobs.length ∧
    (schedulerTick now st oracle).state.schedJobs[i]? =
      some (rescheduleJob now j) ∧
    ((rescheduleJob now j).id = j.id ∧ (rescheduleJob now j).atTime = j.atTime ∧
      (rescheduleJob now j).channel = j.channel ∧
      (rescheduleJob now j).quality = j.quality) ∧
    (rescheduleJob now j).nextRun =
      (now / secondsPerDay + 1) * secondsPerDay + j.atTime ∧
    (∀ entry quality tIn, ∃ tail,
      (scheduleWatch st entry quality tIn now).1.scheduledJobs =
        st.scheduledJobs ++ tail) ∧
    (∀ choice, (showScheduledJobs st choice).1.scheduledJobs = st.scheduledJobs ∨
      ∃ k, (showScheduledJobs st choice).1.scheduledJobs =
        st.scheduledJobs.eraseIdx k) ∧
    (∀ entry quality, (onClickStart st entry quality).state = st) := by
  refine ⟨rfl, by simp [schedulerTick],
    tick_schedJobs_getElem now st oracle i j hget hdue, ⟨rfl, rfl, rfl, rfl⟩, ?_,
    fun entry quality tIn => scheduleWatch_appends st entry quality tIn now, ?_, ?_⟩
  · unfold rescheduleJob nextOccurrence
    dsimp only
    rw [if_neg (by omega)]
  · intro choice
    unfold showScheduledJobs
    split
    · left; rfl
    · split
      · left; rfl
      · split
        · left; rfl
        · split
          · right; exact ⟨_, rfl⟩
          · left; rfl
  · intro entry quality
    unfold onClickStart
    split <;> rfl

/-- Witness for `firing_pass_frame`: the 18:30 scenario job fires at 66600
(= 18:30:00 of day 0); the registry is untouched and the job is rescheduled
in place to the next day's occurrence. -/
theorem firing_pass_frame_witness :
    (schedulerTick 66600 demoDue oracleNotFound).state.scheduledJobs =
      demoDue.scheduledJobs ∧
    (schedulerTick 66600 demoDue oracleNotFound).state.schedJobs[0]? =
      some (rescheduleJob 66600 ⟨0, 66600, 66600, "somechannel", "best"⟩) ∧
    (rescheduleJob 66600 ⟨0, 66600, 66600, "somechannel", "best"⟩).nextRun =
      (66600 / secondsPerDay + 1) * secondsPerDay + 66600 := by
  have h := firing_pass_frame demoDue oracleNotFound 66600 0
    ⟨0, 66600, 66600, "somechannel", "best"⟩ (by decide) (by decide) (by decide)
  exact ⟨h.1, h.2.2.1, h.2.2.2.2.1⟩

/-- C7: when a due job's launch fails — any outcome other than Success,
including the missing-tool case — the failure is surfaced as its
notification among the tick's notifications, the registry is untouched, the
job is rescheduled in place for its next occurrence, and at that next
occurrence a later tick fires the very same job again (under any
environment): the scheduler loop neither stops nor drops the job on launch
failure. -/
theorem launch_failure_resilience (st : WatcherState)
    (oracle oracle2 : String → String → RunOutcome) (now i : Nat) (j : SJob)
    (hget : st.schedJobs[i]? = some j) (hdue : j.nextRun ≤ now)
    (_hfail : launchResult (oracle j.channel j.quality) ≠ .success) :
    launchResultNotif j.channel j.quality
        (launchResult (oracle j.channel j.quality)) ∈
      (schedulerTick now st oracle).notifs ∧
    (schedulerTick now st oracle).state.scheduledJobs = st.scheduledJobs ∧
    (schedulerTick now st oracle).state.schedJobs[i]? =
      some (rescheduleJob now j) ∧
    LaunchEvent.mk .schedulerThread j.channel j.quality ∈
      (schedulerTick (nextOccurrence now j.atTime)
        (schedulerTick now st oracle).state oracle2).events := by
  refine ⟨?_, rfl, tick_schedJobs_getElem now st oracle i j hget hdue, ?_⟩
  · apply notif_of_due now st oracle j (List.getElem?_mem hget) hdue
    rw [afkWatch_eq]
    simp
  · have hmem2 : rescheduleJob now j ∈ (schedulerTick now st oracle).state.schedJobs :=
      List.getElem?_mem (tick_schedJobs_getElem now st oracle i j hget hdue)
    exact event_of_due (nextOccurrence now j.atTime)
      (schedulerTick now st oracle).state oracle2 (rescheduleJob now j) hmem2
      (le_refl _)

/-- Witness for `launch_failure_resilience`: the 18:30 job fires at 66600
with a missing external tool; the ToolNotFound error box is posted, the
registry is unchanged, and the next day's tick (at 153000) fires the job
again. -/
theorem launch_failure_resilience_witness :
    launchResultNotif "somechannel" "best"
        (launchResult (oracleNotFound "somechannel" "best")) ∈
      (schedulerTick 66600 demoDue oracleNotFound).notifs ∧
    (schedulerTick 66600 demoDue oracleNotFound).state.scheduledJobs =
      demoDue.scheduledJobs ∧
    (schedulerTick 66600 demoDue oracleNotFound).state.schedJobs[0]? =
      some (rescheduleJob 66600 ⟨0, 66600, 66600, "somechannel", "best"⟩) ∧
    LaunchEvent.mk .schedulerThread "somechannel" "best" ∈
      (schedulerTick (nextOccurrence 66600 66600)
        (schedulerTick 66600 demoDue oracleNotFound).state oracleNotFound).events :=
  launch_failure_resilience demoDue oracleNotFound oracleNotFound 66600 0
    ⟨0, 66600, 66600, "somechannel", "best"⟩ (by decide) (by decide) (by decide)

/-- C8: a due job fires in the tick at `now` and is rescheduled in place;
its new `next_run` lies beyond every instant of the calendar minute the
firing happened in (so a 1-second tick loop cannot fire it again within
that minute), and when it fired at or after its fire time within the day,
the new `next_run` lies beyond every instant of that whole calendar day (so
it fires at most once per day at its fire time). -/
theorem fire_at_most_once_per_minute (st : WatcherState)
    (oracle : String → String → RunOutcome) (now i : Nat) (j : SJob)
    (hget : st.schedJobs[i]? = some j) (hdue : j.nextRun ≤ now)
    (halign : j.atTime % 60 = 0) :
    LaunchEvent.mk .schedulerThread j.channel j.quality ∈
      (schedulerTick now st oracle).events ∧
    (schedulerTick now st oracle).state.schedJobs[i]? =
      some (rescheduleJob now j) ∧
    (∀ t, t / 60 = now / 60 → ¬(rescheduleJob now j).nextRun ≤ t) ∧
    (j.atTime ≤ now % secondsPerDay →
      ∀ t, t / secondsPerDay = now / secondsPerDay →
        ¬(rescheduleJob now j).nextRun ≤ t) := by
  refine ⟨event_of_due now st oracle j (List.getElem?_mem hget) hdue,
    tick_schedJobs_getElem now st oracle i j hget hdue, ?_, ?_⟩
  · intro t ht
    simp only [rescheduleJob, nextOccurrence, secondsPerDay]
    split
    · omega
    · omega
  · intro hin t ht
    simp only [secondsPerDay] at hin ht
    simp only [rescheduleJob, nextOccurrence, secondsPerDay]
    split
    · omega
    · omega

/-- Witness for `fire_at_most_once_per_minute`: the job scheduled for 18:30
fires at 18:30:00 (= 66600) and its new `next_run` has not arrived at
18:30:59 (= 66659), so no tick of that minute fires it again. -/
theorem fire_at_most_once_per_minute_witness :
    LaunchEvent.mk .schedulerThread "somechannel" "best" ∈
      (schedulerTick 66600 demoDue oracleNotFound).events ∧
    ¬(rescheduleJob 66600 ⟨0, 66600, 66600, "somechannel", "best"⟩).nextRun ≤ 66659 := by
  have h := fire_at_most_once_per_minute demoDue oracleNotFound 66600 0
    ⟨0, 66600, 66600, "somechannel", "best"⟩ (by decide) (by decide) (by decide)
  exact ⟨h.1, h.2.2.1 66659 (by decide)⟩

/-- C9 (counterexample): when the scheduled 18:30 job fires, the launch is
executed inline by the `run_pending` pass on the scheduler tick thread — the
tick's one launch event carries the scheduler-thread context, not a
dedicated worker — because line 218 registers `self._afk_watch` itself as
the job function, with no `threading.Thread` wrapper. -/
theorem scheduled_launch_thread_counterexample :
    (schedulerTick 66600 demoDue oracleNotFound).events =
      [⟨.schedulerThread, "somechannel", "best"⟩] ∧
    ExecCtx.schedulerThread ≠ ExecCtx.workerThread := by
  decide

/-- C9 (amended): the immediate "watch now" path always runs the launcher on
a fresh worker thread (never the user-interaction thread), but every launch
a scheduler firing pass performs runs on the scheduler tick thread itself,
blocking the tick loop for its duration. -/
theorem launch_thread_assignment (st : WatcherState) (entry quality : String)
    (now : Nat) (oracle : String → String → RunOutcome) :
    (∀ ev ∈ (onClickStart st entry quality).spawned, ev.ctx = .workerThread) ∧
    (∀ ev ∈ (schedulerTick now st oracle).events, ev.ctx = .schedulerThread) := by
  constructor
  · intro ev hev
    unfold onClickStart at hev
    split at hev
    · simp at hev
    · simp only [List.mem_singleton] at hev
      rw [hev]
  · intro ev hev
    have hrw : (schedulerTick now st oracle).events =
        (dueJobs now st.schedJobs).map
          (fun k => (⟨.schedulerThread, k.channel, k.quality⟩ : LaunchEvent)) := rfl
    rw [hrw] at hev
    obtain ⟨k, hk, rfl⟩ := List.mem_map.mp hev
    rfl

/-- Witness for `launch_thread_assignment`: a concrete spawned watch-now
event runs on a worker thread, and the concrete scheduled firing at 66600
runs on the scheduler thread. -/
theorem launch_thread_assignment_witness :
    (LaunchEvent.mk .workerThread "somechannel" "best").ctx = .workerThread ∧
    (LaunchEvent.mk .schedulerThread "somechannel" "best").ctx = .schedulerThread :=
  ⟨(launch_thread_assignment emptyState "somechannel" "best" 0 oracleNotFound).1
      ⟨.workerThread, "somechannel", "best"⟩ (by decide),
   (launch_thread_assignment demoDue "somechannel" "best" 66600 oracleNotFound).2
      ⟨.schedulerThread, "somechannel", "best"⟩ (by decide)⟩

/-- C5: For every channelId and quality, launch builds exactly the fixed
command line — the external tool name, player-no-close, the player name, the
fixed player flags (muted, really-quiet, borderless, zero-geometry, no
on-screen controller, exit-when-idle) passed as the player-args string, retry
count 5, the ad-mitigation flag, and finally the target URL
`https://twitch.tv/<channelId>` and the quality — and nothing else; the
command is a pure function of (channelId, quality). -/
theorem launch_command_exact (channel quality : String) :
    streamlinkCommand channel quality =
      ["streamlink",
       "--player-no-close",
       "--player", "mpv",
       "--player-args",
       "--mute=yes --really-quiet --no-border --geometry=0x0+0x0 --no-osc --idle=once",
       "--retry-streams", "5",
       "--twitch-disable-ads",
       "https://twitch.tv/" ++ channel, quality] := by
  rfl

/-- C6: Every invocation of the launcher terminates in exactly one of the four
outcomes given by `launchResult`, surfaced as exactly one outcome notification
after the initial "Starting Stream" box (so the notification list is exactly
two elements), and every non-Success outcome is surfaced as an error
notification — no outcome is silently dropped, and no exception escapes
(`afkWatch` is a total function of the run outcome). -/
theorem launch_outcomes_surfaced (channel quality : String) (r : RunOutcome) :
    afkWatch channel quality r =
      [startingNotif channel quality,
       launchResultNotif channel quality (launchResult r)] ∧
    (launchResult r ≠ .success →
      ∃ t m, launchResultNotif channel quality (launchResult r) = .error t m) := by
  constructor
  · cases r with
    | completed code out errOut =>
        by_cases h : code = 0 <;> simp [afkWatch, launchResult, launchResultNotif, h]
    | fileNotFound => rfl
    | otherError msg => rfl
  · intro hne
    cases hr : launchResult r with
    | success => exact absurd hr hne
    | toolExitedWithCode code captured => exact ⟨_, _, rfl⟩
    | toolNotFound => exact ⟨_, _, rfl⟩
    | unexpectedFailure msg => exact ⟨_, _, rfl⟩

/-- Witness for `launch_outcomes_surfaced` at a concrete failing run: the
missing-executable case surfaces as exactly one error notification. -/
theorem launch_outcomes_surfaced_witness :
    afkWatch "somechannel" "best" .fileNotFound =
      [startingNotif "somechannel" "best",
       launchResultNotif "somechannel" "best" (launchResult .fileNotFound)] ∧
    (∃ t m, launchResultNotif "somechannel" "best" (launchResult .fileNotFound) =
      .error t m) :=
  ⟨(launch_outcomes_surfaced "somechannel" "best" .fileNotFound).1,
   (launch_outcomes_surfaced "somechannel" "best" .fileNotFound).2 (by decide)⟩

end TwitchAFK
